import Mathlib

/-!
Shallow embedding of the `celestia-types` namespaced-data module
(`src/types/src/namespaced_data.rs`) of the lumina repository.

Bytes are modelled as `Nat` values below 256; fixed-width machine integers
(`u16`, `u64`) are modelled as `Nat` with explicit bounds where overflow
matters.  Fallible Rust functions returning `Result` are modelled with
`Except`; a potential panic (the `unwrap` in the CID conversion) is modelled
with an outer `Option`, where `none` stands for the panic.

External collaborator types that are not part of the repository source
(`RowId`, `Namespace`, the multihash/CID envelope, the namespace-proof
capability and the data-availability header) are modelled from the spec;
each such definition carries a doc comment saying so.
-/

namespace Lumina

/-- Little-endian byte encoding of a natural number into `w` bytes,
least significant byte first (values are truncated modulo `256 ^ w`). -/
def leBytes : Nat → Nat → List Nat
  | 0, _ => []
  | w + 1, n => n % 256 :: leBytes w (n / 256)

/-- Little-endian interpretation of a byte list as a natural number. -/
def leNum (bs : List Nat) : Nat :=
  bs.foldr (fun b acc => b + 256 * acc) 0

theorem leBytes_length (w n : Nat) : (leBytes w n).length = w := by
  induction w generalizing n with
  | zero => rfl
  | succ w ih => simp [leBytes, ih]

theorem leNum_leBytes (w n : Nat) : leNum (leBytes w n) = n % 256 ^ w := by
  induction w generalizing n with
  | zero => simp [leBytes, leNum, Nat.mod_one]
  | succ w ih =>
    have hrec : leNum (leBytes w (n / 256)) = n / 256 % 256 ^ w := ih (n / 256)
    have hsplit : n % 256 ^ (w + 1) = n % 256 + 256 * (n / 256 % 256 ^ w) := by
      calc n % 256 ^ (w + 1) = n % (256 * 256 ^ w) := by ring_nf
        _ = n % 256 + 256 * (n / 256 % 256 ^ w) := Nat.mod_mul
    simp only [leBytes, leNum, List.foldr_cons] at *
    omega

/-- Opaque error value produced by the external namespace-proof capability
(`RangeProofError` in the source); its structure is irrelevant here. -/
abbrev ProofError := Nat

/-- Errors of the `blockstore` CID layer used by the identifier codec, as
matched on by the source (`CidError` variants used in
`namespaced_data.rs`). -/
inductive CidError where
  | InvalidCidCodec (codec : Nat)
  | InvalidMultihashLength (len : Nat)
  | InvalidMultihashCode (code : Nat) (expected : Nat)
  | InvalidCid (msg : String)
deriving DecidableEq, Repr

/-- The crate-level error variants reachable from `namespaced_data.rs`
(`Error::WrongProofType`, `Error::EdsIndexOutOfRange`,
`Error::RangeProofError`, `Error::MissingProof`, `Error::ZeroBlockHeight`,
plus the `From<CidError>` conversion used by the `?` operator). -/
inductive Error where
  | WrongProofType
  | EdsIndexOutOfRange (index : Nat)
  | RangeProofError (e : ProofError)
  | MissingProof
  | ZeroBlockHeight
  | CidErr (e : CidError)
deriving DecidableEq, Repr

/-- Modelled from the spec: the `NS_SIZE` constant of the external
`Namespace` type (29 bytes in the reference encoding). -/
def NS_SIZE : Nat := 29

/-- Modelled from the spec: the external `RowId` collaborator type,
`{ index: u16, block_height: u64 }`.  Machine integers are `Nat` with
bounds stated as hypotheses where they matter. -/
structure RowId where
  index : Nat
  block_height : Nat
deriving DecidableEq, Repr

/-- Modelled from the spec: fixed encoded width of a row identifier,
10 bytes (8-byte height plus 2-byte index). -/
def RowId.size : Nat := 10

/-- Modelled from the spec: `RowId` encoding, 8-byte little-endian block
height first, then 2-byte little-endian row index. -/
def RowId.encode (r : RowId) : List Nat :=
  leBytes 8 r.block_height ++ leBytes 2 r.index

/-- Modelled from the spec: decoding of the fixed 10-byte row buffer,
height from offsets 0..8 and index from offsets 8..10. -/
def RowId.decode (buffer : List Nat) : Except CidError RowId :=
  if buffer.length ≠ RowId.size then
    .error (.InvalidMultihashLength buffer.length)
  else
    .ok { index := leNum (buffer.drop 8), block_height := leNum (buffer.take 8) }

/-- Modelled from the spec: `RowId::new(index, height)` rejects height 0. -/
def RowId.new (index : Nat) (block_height : Nat) : Except Error RowId :=
  if block_height = 0 then .error .ZeroBlockHeight
  else .ok { index := index, block_height := block_height }

/-- Modelled from the spec: the external `Namespace` collaborator, a
fixed-width byte tag of width `NS_SIZE`, treated as an opaque comparable
value with a raw-bytes view. -/
structure Namespace where
  bytes : List Nat
deriving DecidableEq, Repr

/-- Modelled from the spec: raw-bytes view of a namespace. -/
def Namespace.as_bytes (n : Namespace) : List Nat := n.bytes

/-- Modelled from the spec: `Namespace::from_raw` rejects byte buffers
whose length is not `NS_SIZE`. -/
def Namespace.from_raw (buffer : List Nat) : Except String Namespace :=
  if buffer.length ≠ NS_SIZE then .error "InvalidNamespaceSize"
  else .ok { bytes := buffer }

/-- The code of the `NamespacedDataId` hashing algorithm in `multihash`. -/
def NAMESPACED_DATA_ID_MULTIHASH_CODE : Nat := 0x7821

/-- The id of the codec used for the `NamespacedDataId` in CIDs. -/
def NAMESPACED_DATA_ID_CODEC : Nat := 0x7820

/-- Identifies shares within a namespace located on a particular row of the
block's extended data square (`NamespacedDataId` in the source). -/
structure NamespacedDataId where
  row : RowId
  ns : Namespace
deriving DecidableEq, Repr

/-- Number of bytes needed to represent a `NamespacedDataId`:
`RowId::size() + NS_SIZE = 10 + 29 = 39`. -/
def NamespacedDataId.size : Nat := RowId.size + NS_SIZE

/-- The size of the `NamespacedDataId` hash in `multihash`. -/
def NAMESPACED_DATA_ID_SIZE : Nat := NamespacedDataId.size

/-- Embeds `NamespacedDataId::new`: the zero-height check followed by
`RowId::new`. -/
def NamespacedDataId.new (ns : Namespace) (row_index : Nat) (block_height : Nat) :
    Except Error NamespacedDataId :=
  if block_height = 0 then .error .ZeroBlockHeight
  else
    match RowId.new row_index block_height with
    | .error e => .error e
    | .ok row => .ok { row := row, ns := ns }

/-- Embeds `NamespacedDataId::encode`: the row encoding followed by the raw
namespace bytes (the source writes into a byte buffer; here the buffer is
returned). -/
def NamespacedDataId.encode (id : NamespacedDataId) : List Nat :=
  id.row.encode ++ id.ns.as_bytes

/-- Embeds `NamespacedDataId::decode`: length check against the constant
size, split at `RowId::size()`, row decode, then namespace decode. -/
def NamespacedDataId.decode (buffer : List Nat) : Except CidError NamespacedDataId :=
  if buffer.length ≠ NAMESPACED_DATA_ID_SIZE then
    .error (.InvalidMultihashLength buffer.length)
  else
    let row_id := buffer.take RowId.size
    let ns_bytes := buffer.drop RowId.size
    match RowId.decode row_id with
    | .error e => .error e
    | .ok row =>
      match Namespace.from_raw ns_bytes with
      | .error e => .error (.InvalidCid e)
      | .ok ns => .ok { row := row, ns := ns }

/-- Modelled from the spec: the external multihash envelope, a hash-code
tag together with the digest bytes; `size` is the recorded digest length. -/
structure Multihash where
  code : Nat
  digest : List Nat
deriving DecidableEq, Repr

/-- Modelled from the spec: recorded digest length of a multihash. -/
def Multihash.size (mh : Multihash) : Nat := mh.digest.length

/-- Modelled from the spec: `Multihash::<S>::wrap` stores the digest bytes
verbatim and fails when they exceed the capacity `S`. -/
def Multihash.wrap (S : Nat) (code : Nat) (digest : List Nat) : Option Multihash :=
  if digest.length ≤ S then some { code := code, digest := digest } else none

/-- Modelled from the spec: the generic self-describing content identifier
`{ version, codec_tag, multihash }`. -/
structure Cid where
  version : Nat
  codec : Nat
  hash : Multihash
deriving DecidableEq, Repr

/-- Modelled from the spec: `CidGeneric::new_v1` tags a multihash with a
codec under version 1. -/
def Cid.new_v1 (codec : Nat) (hash : Multihash) : Cid :=
  { version := 1, codec := codec, hash := hash }

/-- Embeds `TryFrom<CidGeneric<S>> for NamespacedDataId`: codec check, then
digest-length check, then multihash-code check, then `decode` on the
digest bytes. -/
def NamespacedDataId.fromCid (cid : Cid) : Except CidError NamespacedDataId :=
  let codec := cid.codec
  if codec ≠ NAMESPACED_DATA_ID_CODEC then .error (.InvalidCidCodec codec)
  else
    let hash := cid.hash
    let size := hash.size
    if size ≠ NAMESPACED_DATA_ID_SIZE then .error (.InvalidMultihashLength size)
    else
      let code := hash.code
      if code ≠ NAMESPACED_DATA_ID_MULTIHASH_CODE then
        .error (.InvalidMultihashCode code NAMESPACED_DATA_ID_MULTIHASH_CODE)
      else
        NamespacedDataId.decode hash.digest

/-- Embeds `TryFrom<NamespacedDataId> for CidGeneric<NAMESPACED_DATA_ID_SIZE>`:
encode, wrap with the reserved multihash code, tag with the reserved codec.
The source unwraps the result of `Multihash::wrap`; the potential panic is
the outer `none`. -/
def NamespacedDataId.toCid (id : NamespacedDataId) : Option (Except CidError Cid) :=
  match Multihash.wrap NAMESPACED_DATA_ID_SIZE NAMESPACED_DATA_ID_MULTIHASH_CODE id.encode with
  | none => none
  | some mh => some (.ok (Cid.new_v1 NAMESPACED_DATA_ID_CODEC mh))

/-- Modelled from the spec: a root commitment for one row, opaque bytes. -/
abbrev Root := List Nat

/-- Modelled from the spec: the external namespace-inclusion-proof
capability, exposing one verification operation over a root commitment,
an ordered share sequence and a namespace. -/
structure NamespaceProof where
  verify_complete_namespace : Root → List (List Nat) → Namespace → Except ProofError Unit

/-- Modelled from the spec: the external header commitment source, consumed
as the lookup `row_root(index) -> Option<RootCommitment>`. -/
structure DataAvailabilityHeader where
  row_root : Nat → Option Root

/-- Contains up to a row of shares belonging to a particular namespace and
a proof of their inclusion (`NamespacedData` in the source). -/
structure NamespacedData where
  namespaced_data_id : NamespacedDataId
  proof : NamespaceProof
  shares : List (List Nat)

/-- Embeds `NamespacedData::validate`: empty-shares precheck, row-root
lookup by the identifier's row index, then delegation to the proof
capability with failures wrapped as `RangeProofError`. -/
def NamespacedData.validate (nd : NamespacedData) (dah : DataAvailabilityHeader) :
    Except Error Unit :=
  if nd.shares.isEmpty then .error .WrongProofType
  else
    let ns := nd.namespaced_data_id.ns
    let row := nd.namespaced_data_id.row.index
    match dah.row_root row with
    | none => .error (.EdsIndexOutOfRange row)
    | some root =>
      match nd.proof.verify_complete_namespace root nd.shares ns with
      | .error e => .error (.RangeProofError e)
      | .ok _ => .ok ()

/-- Modelled from the spec: the wire-level proof message together with its
fallible conversion into the proof capability type (the `try_into` used by
the source; the conversion itself is external to the repository). -/
structure RawProof where
  tryInto : Except Error NamespaceProof

/-- The flat wire message shape `RawNamespacedData`: opaque identifier
bytes, ordered share byte buffers, and an optional proof message. -/
structure RawNamespacedData where
  data_id : List Nat
  data_shares : List (List Nat)
  data_proof : Option RawProof

/-- Embeds `TryFrom<RawNamespacedData> for NamespacedData`: missing-proof
check, identifier decode, then proof conversion, carrying the shares over
unchanged. -/
def NamespacedData.tryFromRaw (raw : RawNamespacedData) : Except Error NamespacedData :=
  match raw.data_proof with
  | none => .error .MissingProof
  | some proof =>
    match NamespacedDataId.decode raw.data_id with
    | .error e => .error (.CidErr e)
    | .ok namespaced_data_id =>
      match proof.tryInto with
      | .error e => .error e
      | .ok p =>
        .ok { namespaced_data_id := namespaced_data_id
              proof := p
              shares := raw.data_shares }

/-- Embeds the derived structural `PartialEq` of `RowId`. -/
def RowId.beq (a b : RowId) : Bool :=
  a.index == b.index && a.block_height == b.block_height

/-- Embeds the derived structural `PartialEq` of `Namespace` (comparison of
the raw byte tags). -/
def Namespace.beq (a b : Namespace) : Bool :=
  a.bytes == b.bytes

/-- Embeds the derived structural `PartialEq` of `NamespacedDataId`:
fieldwise comparison of `row` and `namespace`. -/
def NamespacedDataId.beq (a b : NamespacedDataId) : Bool :=
  RowId.beq a.row b.row && Namespace.beq a.ns b.ns

/-- Modelled from the spec: hashing of a `NamespacedDataId`.  The source
file derives no hash; the spec makes the multihash digest the canonical
hash of an identifier and states that it is the identity over the encoded
bytes, so the hash of an identifier is its 39-byte encoding. -/
def NamespacedDataId.hashBytes (id : NamespacedDataId) : List Nat :=
  id.encode

theorem RowId.encode_size (r : RowId) : r.encode.length = RowId.size := by
  simp [RowId.encode, RowId.size, leBytes_length]

theorem NamespacedDataId.encode_length (id : NamespacedDataId)
    (hns : id.ns.bytes.length = NS_SIZE) :
    id.encode.length = NAMESPACED_DATA_ID_SIZE := by
  simp [NamespacedDataId.encode, Namespace.as_bytes, RowId.encode_size, hns,
    NAMESPACED_DATA_ID_SIZE, NamespacedDataId.size]

theorem RowId.decode_of_encode (r : RowId) (hi : r.index < 2 ^ 16)
    (hh : r.block_height < 2 ^ 64) :
    RowId.decode r.encode = .ok r := by
  have hlen8 : (leBytes 8 r.block_height).length = 8 := leBytes_length 8 _
  have htake : r.encode.take 8 = leBytes 8 r.block_height := by
    rw [RowId.encode, List.take_append_of_le_length (by omega), List.take_of_length_le (by omega)]
  have hdrop : r.encode.drop 8 = leBytes 2 r.index := by
    rw [RowId.encode, List.drop_append_of_le_length (by omega),
      List.drop_of_length_le (by omega), List.nil_append]
  have hh' : r.block_height % 256 ^ 8 = r.block_height := by
    apply Nat.mod_eq_of_lt
    calc r.block_height < 2 ^ 64 := hh
      _ = 256 ^ 8 := by norm_num
  have hi' : r.index % 256 ^ 2 = r.index := by
    apply Nat.mod_eq_of_lt
    calc r.index < 2 ^ 16 := hi
      _ = 256 ^ 2 := by norm_num
  rw [RowId.decode, if_neg (by simp [RowId.encode_size])]
  rw [htake, hdrop, leNum_leBytes, leNum_leBytes, hh', hi']

theorem NamespacedDataId.decode_encode (id : NamespacedDataId)
    (hns : id.ns.bytes.length = NS_SIZE) (hi : id.row.index < 2 ^ 16)
    (hh : id.row.block_height < 2 ^ 64) :
    NamespacedDataId.decode id.encode = .ok id := by
  have hrl : id.row.encode.length = RowId.size := RowId.encode_size id.row
  have htake : id.encode.take RowId.size = id.row.encode := by
    rw [NamespacedDataId.encode, List.take_append_of_le_length (by omega),
      List.take_of_length_le (by omega)]
  have hdrop : id.encode.drop RowId.size = id.ns.bytes := by
    rw [NamespacedDataId.encode, List.drop_append_of_le_length (by omega),
      List.drop_of_length_le (by omega), List.nil_append, Namespace.as_bytes]
  rw [NamespacedDataId.decode,
    if_neg (by simp [NamespacedDataId.encode_length id hns])]
  simp only [htake, hdrop]
  rw [RowId.decode_of_encode id.row hi hh]
  rw [Namespace.from_raw, if_neg (by omega)]

/-- Sample 29-byte namespace (28 zero bytes, last byte 1), matching the
spec's end-to-end example. -/
def sampleNamespace : Namespace :=
  { bytes := List.replicate 28 0 ++ [1] }

/-- Sample identifier with row index 7 at block height 64, matching the
spec's end-to-end example. -/
def sampleId : NamespacedDataId :=
  { row := { index := 7, block_height := 64 }, ns := sampleNamespace }

/-- C1: for every valid identifier (29-byte namespace, `u16` row index,
positive `u64` block height), converting the `NamespacedDataId` into a CID
and converting that CID back yields exactly the original identifier. -/
theorem namespaced_data_id_cid_round_trip (id : NamespacedDataId)
    (hns : id.ns.bytes.length = NS_SIZE) (hi : id.row.index < 2 ^ 16)
    (_hh0 : 0 < id.row.block_height) (hh : id.row.block_height < 2 ^ 64) :
    ∃ cid : Cid, id.toCid = some (.ok cid) ∧ NamespacedDataId.fromCid cid = .ok id := by
  refine ⟨Cid.new_v1 NAMESPACED_DATA_ID_CODEC
    { code := NAMESPACED_DATA_ID_MULTIHASH_CODE, digest := id.encode }, ?_, ?_⟩
  · rw [NamespacedDataId.toCid, Multihash.wrap,
      if_pos (by rw [NamespacedDataId.encode_length id hns])]
  · rw [NamespacedDataId.fromCid]
    simp only [Cid.new_v1, Multihash.size, NamespacedDataId.encode_length id hns]
    rw [if_neg (by decide), if_neg (by decide), if_neg (by decide)]
    exact NamespacedDataId.decode_encode id hns hi hh

/-- Witness for C1 at the spec's end-to-end example input. -/
theorem namespaced_data_id_cid_round_trip_witness :
    ∃ cid : Cid, sampleId.toCid = some (.ok cid) ∧
      NamespacedDataId.fromCid cid = .ok sampleId :=
  namespaced_data_id_cid_round_trip sampleId (by decide) (by decide) (by decide)
    (by decide)

/-- C2: for every valid `NamespacedDataId`, conversion into a CID succeeds
(no error, no panic) and produces a v1 CID with codec `0x7820`, multihash
code `0x7821` and a 39-byte digest equal to the identifier's encoding (the
10-byte row encoding followed by the 29 raw namespace bytes), with no
hashing applied. -/
theorem namespaced_data_id_to_cid_infallible (id : NamespacedDataId)
    (hns : id.ns.bytes.length = NS_SIZE) :
    id.toCid = some (.ok (Cid.mk 1 NAMESPACED_DATA_ID_CODEC
        (Multihash.mk NAMESPACED_DATA_ID_MULTIHASH_CODE id.encode)))
    ∧ id.encode.length = 39
    ∧ id.encode = id.row.encode ++ id.ns.bytes := by
  have hlen : id.encode.length = 39 := NamespacedDataId.encode_length id hns
  refine ⟨?_, hlen, rfl⟩
  rw [NamespacedDataId.toCid, Multihash.wrap, if_pos (by rw [hlen]; decide)]
  rfl

/-- Witness for C2 at the spec's end-to-end example input. -/
theorem namespaced_data_id_to_cid_infallible_witness :
    sampleId.toCid = some (.ok (Cid.mk 1 NAMESPACED_DATA_ID_CODEC
        (Multihash.mk NAMESPACED_DATA_ID_MULTIHASH_CODE sampleId.encode)))
    ∧ sampleId.encode.length = 39
    ∧ sampleId.encode = sampleId.row.encode ++ sampleId.ns.bytes :=
  namespaced_data_id_to_cid_infallible sampleId (by decide)

/-- C8: constructing a `NamespacedDataId` with block height 0 always fails
with the zero-height error, for every namespace and every row index. -/
theorem namespaced_data_id_new_zero_height (ns : Namespace) (row_index : Nat) :
    NamespacedDataId.new ns row_index 0 = .error .ZeroBlockHeight := by
  rfl

/-- C3: the CID-to-identifier conversion performs its checks in a fixed
order — codec first, digest length second, multihash code third — with the
stated error payloads, and only when all three pass are the digest bytes
decoded. -/
theorem cid_to_namespaced_data_id_check_order (cid : Cid) :
    (cid.codec ≠ NAMESPACED_DATA_ID_CODEC →
      NamespacedDataId.fromCid cid = .error (.InvalidCidCodec cid.codec)) ∧
    (cid.codec = NAMESPACED_DATA_ID_CODEC → cid.hash.size ≠ NAMESPACED_DATA_ID_SIZE →
      NamespacedDataId.fromCid cid = .error (.InvalidMultihashLength cid.hash.size)) ∧
    (cid.codec = NAMESPACED_DATA_ID_CODEC → cid.hash.size = NAMESPACED_DATA_ID_SIZE →
      cid.hash.code ≠ NAMESPACED_DATA_ID_MULTIHASH_CODE →
      NamespacedDataId.fromCid cid =
        .error (.InvalidMultihashCode cid.hash.code NAMESPACED_DATA_ID_MULTIHASH_CODE)) ∧
    (cid.codec = NAMESPACED_DATA_ID_CODEC → cid.hash.size = NAMESPACED_DATA_ID_SIZE →
      cid.hash.code = NAMESPACED_DATA_ID_MULTIHASH_CODE →
      NamespacedDataId.fromCid cid = NamespacedDataId.decode cid.hash.digest) := by
  refine ⟨fun h1 => ?_, fun h1 h2 => ?_, fun h1 h2 h3 => ?_, fun h1 h2 h3 => ?_⟩
  · simp [NamespacedDataId.fromCid, h1]
  · simp [NamespacedDataId.fromCid, h1, h2]
  · simp [NamespacedDataId.fromCid, h1, h2, h3]
  · simp [NamespacedDataId.fromCid, h1, h2, h3]

/-- Witness for C3: one concrete CID per branch of the check order. -/
theorem cid_to_namespaced_data_id_check_order_witness :
    NamespacedDataId.fromCid
        (Cid.mk 1 4321 (Multihash.mk 0x7821 (List.replicate 39 0))) =
      .error (.InvalidCidCodec 4321) ∧
    NamespacedDataId.fromCid (Cid.mk 1 0x7820 (Multihash.mk 0x7821 [0])) =
      .error (.InvalidMultihashLength 1) ∧
    NamespacedDataId.fromCid
        (Cid.mk 1 0x7820 (Multihash.mk 888 (List.replicate 39 0))) =
      .error (.InvalidMultihashCode 888 0x7821) ∧
    NamespacedDataId.fromCid
        (Cid.mk 1 0x7820 (Multihash.mk 0x7821 (List.replicate 39 0))) =
      NamespacedDataId.decode (List.replicate 39 0) :=
  ⟨(cid_to_namespaced_data_id_check_order _).1 (by decide),
   (cid_to_namespaced_data_id_check_order _).2.1 (by decide) (by decide),
   (cid_to_namespaced_data_id_check_order _).2.2.1 (by decide) (by decide) (by decide),
   (cid_to_namespaced_data_id_check_order _).2.2.2 (by decide) (by decide) (by decide)⟩

/-- C4: validation of an envelope with an empty shares sequence always
fails with the empty-target error (`WrongProofType`), regardless of proof,
identifier and header; the proof capability is never consulted. -/
theorem validate_empty_shares (nd : NamespacedData) (dah : DataAvailabilityHeader)
    (h : nd.shares = []) :
    nd.validate dah = .error .WrongProofType := by
  simp [NamespacedData.validate, h]

/-- Trivially succeeding proof capability, used as a concrete witness
value. -/
def trivialProof : NamespaceProof :=
  { verify_complete_namespace := fun _ _ _ => .ok () }

/-- Sample header exposing a root only for row 7. -/
def sampleDah : DataAvailabilityHeader :=
  { row_root := fun i => if i = 7 then some [42] else none }

/-- Sample header exposing no roots at all. -/
def emptyDah : DataAvailabilityHeader :=
  { row_root := fun _ => none }

/-- Sample envelope with no shares. -/
def emptyEnvelope : NamespacedData :=
  { namespaced_data_id := sampleId, proof := trivialProof, shares := [] }

/-- Sample envelope with one share. -/
def sampleEnvelope : NamespacedData :=
  { namespaced_data_id := sampleId, proof := trivialProof, shares := [[0]] }

/-- Witness for C4 at a concrete empty envelope. -/
theorem validate_empty_shares_witness :
    emptyEnvelope.validate sampleDah = .error .WrongProofType :=
  validate_empty_shares emptyEnvelope sampleDah rfl

/-- C5: on a non-empty envelope, a failed row-root lookup yields the
out-of-range error carrying the row index; a successful lookup makes
validation return exactly the capability verdict, failures wrapped as
`RangeProofError` and success as the empty success value. -/
theorem validate_nonempty_shares (nd : NamespacedData) (dah : DataAvailabilityHeader)
    (h : nd.shares ≠ []) :
    (dah.row_root nd.namespaced_data_id.row.index = none →
      nd.validate dah = .error (.EdsIndexOutOfRange nd.namespaced_data_id.row.index)) ∧
    (∀ root : Root, dah.row_root nd.namespaced_data_id.row.index = some root →
      nd.validate dah =
        match nd.proof.verify_complete_namespace root nd.shares nd.namespaced_data_id.ns with
        | .ok _ => .ok ()
        | .error e => .error (.RangeProofError e)) := by
  have hne : nd.shares.isEmpty = false := by
    cases hsh : nd.shares with
    | nil => exact absurd hsh h
    | cons a as => rfl
  constructor
  · intro hroot
    simp [NamespacedData.validate, hne, hroot]
  · intro root hroot
    cases hv : nd.proof.verify_complete_namespace root nd.shares nd.namespaced_data_id.ns with
    | ok u => simp [NamespacedData.validate, hne, hroot, hv]
    | error e => simp [NamespacedData.validate, hne, hroot, hv]

/-- Witness for C5: both the missing-root branch and the delegated-verdict
branch at concrete envelopes. -/
theorem validate_nonempty_shares_witness :
    sampleEnvelope.validate emptyDah = .error (.EdsIndexOutOfRange 7) ∧
    sampleEnvelope.validate sampleDah = .ok () :=
  ⟨(validate_nonempty_shares sampleEnvelope emptyDah (by simp [sampleEnvelope])).1 rfl,
   ((validate_nonempty_shares sampleEnvelope sampleDah (by simp [sampleEnvelope])).2
      [42] rfl).trans rfl⟩

/-- C6: decoding a wire message whose optional proof field is absent fails
with the missing-proof error, regardless of identifier bytes and shares. -/
theorem try_from_raw_missing_proof (raw : RawNamespacedData)
    (h : raw.data_proof = none) :
    NamespacedData.tryFromRaw raw = .error .MissingProof := by
  simp [NamespacedData.tryFromRaw, h]

/-- Witness for C6 at a concrete proof-less wire message. -/
theorem try_from_raw_missing_proof_witness :
    NamespacedData.tryFromRaw
        { data_id := [], data_shares := [[1]], data_proof := none } =
      .error .MissingProof :=
  try_from_raw_missing_proof _ rfl

/-- C7: a wire message with a present, convertible proof and a well-formed
identifier but an empty shares sequence decodes successfully into an empty
envelope; only the subsequent `validate` call on that envelope fails, with
the empty-target error, for every header. -/
theorem try_from_raw_empty_shares_decodes (raw : RawNamespacedData) (rp : RawProof)
    (p : NamespaceProof) (nid : NamespacedDataId)
    (hp : raw.data_proof = some rp) (hconv : rp.tryInto = .ok p)
    (hid : NamespacedDataId.decode raw.data_id = .ok nid)
    (hsh : raw.data_shares = []) :
    NamespacedData.tryFromRaw raw =
      .ok { namespaced_data_id := nid, proof := p, shares := [] } ∧
    ∀ dah : DataAvailabilityHeader,
      NamespacedData.validate
        { namespaced_data_id := nid, proof := p, shares := [] } dah =
      .error .WrongProofType := by
  constructor
  · simp [NamespacedData.tryFromRaw, hp, hconv, hid, hsh]
  · intro dah
    simp [NamespacedData.validate]

/-- Sample wire message: well-formed identifier bytes, empty shares, and a
present proof that converts successfully. -/
def rawEmptyShares : RawNamespacedData :=
  { data_id := sampleId.encode
    data_shares := []
    data_proof := some { tryInto := .ok trivialProof } }

/-- Witness for C7 at a concrete wire message with empty shares. -/
theorem try_from_raw_empty_shares_decodes_witness :
    NamespacedData.tryFromRaw rawEmptyShares =
      .ok { namespaced_data_id := sampleId, proof := trivialProof, shares := [] } ∧
    NamespacedData.validate
        { namespaced_data_id := sampleId, proof := trivialProof, shares := [] }
        sampleDah =
      .error .WrongProofType :=
  ⟨(try_from_raw_empty_shares_decodes rawEmptyShares { tryInto := .ok trivialProof }
      trivialProof sampleId rfl rfl rfl rfl).1,
   (try_from_raw_empty_shares_decodes rawEmptyShares { tryInto := .ok trivialProof }
      trivialProof sampleId rfl rfl rfl rfl).2 sampleDah⟩

/-- C9: the derived equality of `NamespacedDataId` is structural over the
pair `(row, namespace)`, and the identifier's hash (its canonical encoding,
per the spec's identity multihash) agrees on equal values. -/
theorem namespaced_data_id_eq_hash_structural (a b : NamespacedDataId) :
    (NamespacedDataId.beq a b = true ↔ a.row = b.row ∧ a.ns = b.ns) ∧
    (NamespacedDataId.beq a b = true → a.hashBytes = b.hashBytes) := by
  have hiff : NamespacedDataId.beq a b = true ↔ a.row = b.row ∧ a.ns = b.ns := by
    obtain ⟨⟨ai, ah⟩, ⟨an⟩⟩ := a
    obtain ⟨⟨bi, bh⟩, ⟨bn⟩⟩ := b
    simp [NamespacedDataId.beq, RowId.beq, Namespace.beq, RowId.mk.injEq,
      Namespace.mk.injEq, and_assoc]
  refine ⟨hiff, fun h => ?_⟩
  obtain ⟨hr, hn⟩ := hiff.mp h
  simp [NamespacedDataId.hashBytes, NamespacedDataId.encode, Namespace.as_bytes, hr, hn]

/-- Witness for C9: reflexive comparison and hash agreement at the sample
identifier. -/
theorem namespaced_data_id_eq_hash_structural_witness :
    NamespacedDataId.beq sampleId sampleId = true ∧
    NamespacedDataId.hashBytes sampleId = NamespacedDataId.hashBytes sampleId :=
  ⟨(namespaced_data_id_eq_hash_structural sampleId sampleId).1.mpr ⟨rfl, rfl⟩,
   (namespaced_data_id_eq_hash_structural sampleId sampleId).2 (by decide)⟩

/-- Envelope identical to `sampleEnvelope` except for a proof capability
that always rejects. -/
def failProofEnvelope : NamespacedData :=
  { namespaced_data_id := sampleId
    proof := { verify_complete_namespace := fun _ _ _ => .error 0 }
    shares := [[0]] }

/-- Counterexample for C10 as stated: two envelopes with identical shares,
identifier (hence namespace and row index) validated against the same
header produce different outcomes, because the outcome also depends on the
envelope's proof capability. -/
theorem validate_proof_dependence_counterexample :
    sampleEnvelope.shares = failProofEnvelope.shares ∧
    sampleEnvelope.namespaced_data_id = failProofEnvelope.namespaced_data_id ∧
    sampleEnvelope.validate sampleDah = .ok () ∧
    failProofEnvelope.validate sampleDah = .error (.RangeProofError 0) :=
  ⟨rfl, rfl, rfl, rfl⟩

/-- C10 (amended): the outcome of `validate` depends only on the envelope's
shares and proof, its identifier's namespace and row index, and the
header's row root at that row index; in particular two headers agreeing on
that root give the same result, and the block height is irrelevant. -/
theorem validate_depends_only_on_inputs (nd1 nd2 : NamespacedData)
    (dah1 dah2 : DataAvailabilityHeader)
    (hsh : nd1.shares = nd2.shares) (hp : nd1.proof = nd2.proof)
    (hns : nd1.namespaced_data_id.ns = nd2.namespaced_data_id.ns)
    (hrow : nd1.namespaced_data_id.row.index = nd2.namespaced_data_id.row.index)
    (hroot : dah1.row_root nd1.namespaced_data_id.row.index =
      dah2.row_root nd2.namespaced_data_id.row.index) :
    nd1.validate dah1 = nd2.validate dah2 := by
  have hroot' := hroot
  rw [hrow] at hroot'
  simp only [NamespacedData.validate, hsh, hp, hns, hrow, hroot']

/-- Sample header agreeing with `sampleDah` at row 7 but nowhere else. -/
def sampleDah2 : DataAvailabilityHeader :=
  { row_root := fun i => if i = 7 then some [42] else some [0] }

/-- Sample envelope agreeing with `sampleEnvelope` except for the block
height inside the identifier. -/
def sampleEnvelope2 : NamespacedData :=
  { namespaced_data_id := { row := { index := 7, block_height := 65 }, ns := sampleNamespace }
    proof := trivialProof
    shares := [[0]] }

/-- Witness for the amended C10: a changed block height and a header
agreeing only at row 7 leave the validation outcome unchanged. -/
theorem validate_depends_only_on_inputs_witness :
    sampleEnvelope.validate sampleDah = sampleEnvelope2.validate sampleDah2 :=
  validate_depends_only_on_inputs sampleEnvelope sampleEnvelope2 sampleDah sampleDah2
    rfl rfl rfl rfl rfl

end Lumina
